import Mathlib

/-!
Shallow embedding of `src/Samples/download_testset.py` (the SpatialLM3D
dataset downloader script) and verification of its specification.

Modelling choices:
* A filesystem path is a list of components (`Path`).
* The remote listing call `list_repo_files` either returns a list of
  filenames or raises; we model its outcome as `Except String (List String)`
  and `list_available_scenes` as a function of that outcome.
* `hf_hub_download` and the filesystem primitives used by
  `download_ply_file` (rename, rmdir, stat) can each raise; their outcomes
  are collected in a `FetchEnv` record, and `download_ply_file` is a total
  function of that record, mirroring the Python try/except structure.
* The README writer works over a small filesystem model mapping paths to
  file contents (`FS`); the size of a file is the length of its contents.
* `main` is a pure function of the parsed arguments, the listing outcome
  and a per-filename fetch environment, returning a `RunResult` record of
  the observable effects (exit code, prints, directory creation, files
  attempted and downloaded, README written).
-/

namespace DownloadTestset

/-- A filesystem path, as a list of components. -/
abbrev Path := List String

/-- Python `Path(p).name`: the last path component (empty for an empty path). -/
def pyName (p : Path) : String := p.getLast?.getD ""

/-- Split a character list on a separator character (the groups between
separators, like Python `str.split` with an explicit separator). -/
def splitOnChar : List Char → Char → List (List Char)
  | [], _ => [[]]
  | c :: rest, sep =>
    if c = sep then [] :: splitOnChar rest sep
    else
      match splitOnChar rest sep with
      | [] => [[c]]
      | g :: gs => (c :: g) :: gs

/-- Python `Path(filename).name` for a string filename: the part after the
last slash. -/
def pyBaseName (f : String) : String := ⟨((splitOnChar f.data '/').getLast?.getD [])⟩

/-- Boolean lexicographic `<` on character lists (code-point order), the
order Python string comparison uses. -/
def pyStrLtAux : List Char → List Char → Bool
  | [], [] => false
  | [], _ :: _ => true
  | _ :: _, [] => false
  | a :: as, b :: bs =>
    if a < b then true
    else if b < a then false
    else pyStrLtAux as bs

/-- Boolean Python string comparison `a < b`. -/
def pyStrLt (a b : String) : Bool := pyStrLtAux a.data b.data

/-- Boolean Python string comparison `a <= b`, used by `sorted`. -/
def pyStrLe (a b : String) : Bool := ! pyStrLt b a

/-- Model of the Python builtin `sorted` on a list of strings: a comparison sort by
lexicographic order. -/
def pySorted (l : List String) : List String :=
  List.insertionSort (fun a b => pyStrLe a b = true) l

/-- Python `s.endswith(suf)`: `suf` is a suffix of `s` (on code points). -/
def pyEndsWith (s suf : String) : Bool := suf.data.isSuffixOf s.data

/-- Model of `list_available_scenes` (source lines 32-40): filters the raw repository
listing to names ending in `.ply` and sorts them; if the listing call raises,
the error is reported and the empty list is returned, so the function is
total (it never propagates an exception). -/
def list_available_scenes (raw : Except String (List String)) : List String :=
  match raw with
  | .ok all_files => pySorted (all_files.filter (fun f => pyEndsWith f ".ply"))
  | .error _ => []

/-- Outcomes of the external calls made by one invocation of
`download_ply_file`: the `hf_hub_download` result (the local path where the
file was materialized together with its byte size, or an error), and whether
each of the rename, rmdir and stat filesystem calls raises. -/
structure FetchEnv where
  hf : Except String (Path × Nat)
  renameRaises : Bool
  rmdirRaises : Bool
  statRaises : Bool

/-- Observable outcome of one `download_ply_file` call: the Boolean return
value, the path where the file actually resides afterwards (if any), whether
the cleanup `rmdir` was attempted, and whether it succeeded. -/
structure FetchResult where
  ok : Bool
  finalPath : Option Path
  rmdirAttempted : Bool
  rmdirSucceeded : Bool
deriving DecidableEq

/-- Model of `download_ply_file` (source lines 43-73): downloads one file via
`hf_hub_download`, relocates it to the root of `output_dir` when the
retrieval nested it under a subdirectory, best-effort removes the leftover
directory (`try: rmdir / except: pass`), stats the file, and returns `True`;
any exception in the body is caught by the outer handler, which logs and
returns `False`. -/
def download_ply_file (output_dir : Path) (env : FetchEnv) : FetchResult :=
  match env.hf with
  | .error _ => ⟨false, none, false, false⟩
  | .ok (localPath, _size) =>
    let target := output_dir ++ [pyName localPath]
    if localPath = target then
      if env.statRaises then ⟨false, some localPath, false, false⟩
      else ⟨true, some target, false, false⟩
    else
      if env.renameRaises then ⟨false, some localPath, false, false⟩
      else
        let removed := !env.rmdirRaises
        if env.statRaises then ⟨false, some target, true, removed⟩
        else ⟨true, some target, true, removed⟩

/-- Filesystem model for the README writer: a list of (path, contents)
pairs; the size of a file in bytes is the length of its contents. -/
abbrev FS := List (Path × String)

/-- Does a file exist at path `p`? -/
def fileExists (fs : FS) (p : Path) : Bool := fs.any (fun e => e.1 == p)

/-- Size of the file at `p` (its `st_size`), when it exists. -/
def statSize (fs : FS) (p : Path) : Option Nat :=
  (fs.find? (fun e => e.1 == p)).map (fun e => e.2.length)

/-- Model of `Path.write_text`: create or overwrite the file at `p` with contents
`c`. -/
def writeFile (fs : FS) (p : Path) (c : String) : FS :=
  (p, c) :: fs.filter (fun e => ! (e.1 == p))

/-- Two-digit zero-padded rendering of a number below 100. -/
def twoDigits (n : Nat) : String :=
  if n < 10 then "0" ++ toString n else toString n

/-- Rendering of `{bytes / (1024 * 1024):.2f}`: the size in MB with two
decimal places. The exact float rounding of CPython is abstracted to
round-half-up on exact rationals; the claims checked here depend only on
this being a fixed function of the byte size. -/
def mbDisplay (bytes : Nat) : String :=
  let c := (bytes * 100 + 524288) / 1048576
  toString (c / 100) ++ "." ++ twoDigits (c % 100)

/-- The fixed header of the README, parameterized by
`len(downloaded_files)` (source lines 80-92). -/
def readmeHeader (n : Nat) : String :=
  "# SpatialLM3D Sample Scenes\n\nThis directory contains " ++ toString n ++
  " sample PLY files from the SpatialLM-Testset dataset.\n\n## Dataset Source\n\n" ++
  "- Repository: HuggingFace `manycore-research/SpatialLM-Testset`\n" ++
  "- License: CC-BY-NC-4.0 (Non-commercial use, academic/educational projects allowed)\n" ++
  "- URL: https://huggingface.co/datasets/manycore-research/SpatialLM-Testset\n\n## Files\n\n"

/-- The fixed usage/notes footer of the README (source lines 100-113). -/
def readmeFooter : String :=
  "\n## Usage\n\n1. Launch SpatialLM3D Desktop application\n2. Click \"Select PLY File\" button\n" ++
  "3. Navigate to this `Samples/` directory\n4. Select any `.ply` file to analyze\n\n## Notes\n\n" ++
  "- These files are for demonstration and testing purposes\n" ++
  "- Ensure you have sufficient memory to load large point clouds\n" ++
  "- Processing time varies based on scene complexity\n"

/-- One enumerated file line `"{i}. `{name}` ({size:.2f} MB)\n"`
(source line 98). -/
def readmeEntryLine (i : Nat) (name : String) (size : Nat) : String :=
  toString i ++ ". `" ++ name ++ "` (" ++ mbDisplay size ++ " MB)\n"

/-- The enumeration loop of `create_readme` (source lines 94-98): walk the
downloaded filenames with a 1-based index, and keep an entry
(index, basename, size) only for those whose local file exists at writing
time. -/
def enumEntriesAux (output_dir : Path) (fs : FS) : Nat → List String → List (Nat × String × Nat)
  | _, [] => []
  | i, f :: rest =>
    let p := output_dir ++ [pyBaseName f]
    if fileExists fs p then
      (i, pyBaseName f, (statSize fs p).getD 0) :: enumEntriesAux output_dir fs (i + 1) rest
    else
      enumEntriesAux output_dir fs (i + 1) rest

/-- The enumerated entries of the README, with the 1-based
`enumerate(downloaded_files, 1)` indices. -/
def enumeratedEntries (output_dir : Path) (downloaded_files : List String) (fs : FS) :
    List (Nat × String × Nat) :=
  enumEntriesAux output_dir fs 1 downloaded_files

/-- The full README contents: header (reporting the length of the
downloaded-files list), one line per enumerated entry, and the fixed
footer. -/
def readmeContent (output_dir : Path) (downloaded_files : List String) (fs : FS) : String :=
  readmeHeader downloaded_files.length ++
  String.join ((enumeratedEntries output_dir downloaded_files fs).map
    (fun e => readmeEntryLine e.1 e.2.1 e.2.2)) ++
  readmeFooter

/-- Model of `create_readme` (source lines 76-116): compose the README contents and
write them to `output_dir / "README.md"`, overwriting any previous file
there. -/
def create_readme (output_dir : Path) (downloaded_files : List String) (fs : FS) : FS :=
  writeFile fs (output_dir ++ ["README.md"]) (readmeContent output_dir downloaded_files fs)

/-- The parsed command-line arguments: `--count` (a Python int, possibly
negative), `--output-dir`, and the `--list` flag. -/
structure Args where
  count : Int
  output_dir : Path
  list : Bool

/-- Python slice `l[:n]` for an int bound `n`: a negative bound counts from
the end (clamped at zero), a nonnegative bound takes at most `n` elements. -/
def pySliceTo (l : List String) (n : Int) : List String :=
  if n < 0 then l.take ((l.length : Int) + n).toNat else l.take n.toNat

/-- The observable effects of one run of `main`: process exit code, whether
the "ERROR: No PLY files found in repository." diagnostic was printed,
whether the numbered catalog was printed (the `--list` branch), whether the
output directory was created (`mkdir`), the filenames whose download was
attempted, the filenames successfully downloaded, and whether the README
was written. -/
structure RunResult where
  exitCode : Nat
  printedNoFiles : Bool
  printedCatalog : Bool
  madeOutputDir : Bool
  attempted : List String
  downloaded : List String
  wroteReadme : Bool
deriving DecidableEq

/-- Model of `main` (source lines 119-187), as a pure function of the parsed
arguments, the raw listing outcome and the per-filename fetch environment:
query the catalog; if empty, print the diagnostic and exit 1; if `--list`,
print the numbered catalog and exit 0; otherwise create the output
directory, attempt the first `min(count, N)` files (a Python slice), write
the README when at least one download succeeded (exit 0), and exit 1 when
none did. -/
def main (args : Args) (raw : Except String (List String)) (env : String → FetchEnv) : RunResult :=
  let available := list_available_scenes raw
  if available.isEmpty then
    { exitCode := 1, printedNoFiles := true, printedCatalog := false,
      madeOutputDir := false, attempted := [], downloaded := [], wroteReadme := false }
  else if args.list then
    { exitCode := 0, printedNoFiles := false, printedCatalog := true,
      madeOutputDir := false, attempted := [], downloaded := [], wroteReadme := false }
  else
    let count := min args.count (available.length : Int)
    let attempted := pySliceTo available count
    let downloaded := attempted.filter (fun f => (download_ply_file args.output_dir (env f)).ok)
    if downloaded.isEmpty then
      { exitCode := 1, printedNoFiles := false, printedCatalog := false,
        madeOutputDir := true, attempted := attempted, downloaded := downloaded,
        wroteReadme := false }
    else
      { exitCode := 0, printedNoFiles := false, printedCatalog := false,
        madeOutputDir := true, attempted := attempted, downloaded := downloaded,
        wroteReadme := true }

/-- The whole program, including the import guard (source lines 18-24):
when the required libraries are absent the process exits 1 immediately,
before any other logic runs. -/
def program (depsOk : Bool) (args : Args) (raw : Except String (List String))
    (env : String → FetchEnv) : RunResult :=
  if depsOk then main args raw env
  else
    { exitCode := 1, printedNoFiles := false, printedCatalog := false,
      madeOutputDir := false, attempted := [], downloaded := [], wroteReadme := false }

/-! ### Helper lemmas -/

/-- Lemma: `pyStrLtAux` computes exactly the lexicographic order `List.Lex (· < ·)`
on character lists. -/
theorem pyStrLtAux_eq_true_iff :
    ∀ as bs : List Char, pyStrLtAux as bs = true ↔ List.Lex (· < ·) as bs := by
  intro as
  induction as with
  | nil =>
    intro bs
    cases bs with
    | nil =>
      constructor
      · intro h
        simp [pyStrLtAux] at h
      · intro h
        cases h
    | cons b bs =>
      constructor
      · intro _
        exact .nil
      · intro _
        rfl
  | cons a as ih =>
    intro bs
    cases bs with
    | nil =>
      constructor
      · intro h
        simp [pyStrLtAux] at h
      · intro h
        cases h
    | cons b bs =>
      by_cases hab : a < b
      · constructor
        · intro _
          exact .rel hab
        · intro _
          simp [pyStrLtAux, hab]
      · by_cases hba : b < a
        · constructor
          · intro h
            simp only [pyStrLtAux, if_neg hab, if_pos hba] at h
            exact absurd h (by simp)
          · intro h
            cases h with
            | cons h => exact absurd hba (lt_irrefl _)
            | rel h => exact absurd hba (asymm h)
        · have heq : a = b := le_antisymm (not_lt.mp hba) (not_lt.mp hab)
          subst heq
          constructor
          · intro h
            simp only [pyStrLtAux, if_neg hab, if_neg hba] at h
            exact .cons ((ih bs).mp h)
          · intro h
            simp only [pyStrLtAux, if_neg hab, if_neg hba]
            rw [ih bs]
            cases h with
            | cons h => exact h
            | rel h => exact absurd h hab

/-- Lemma: `pyStrLt` computes exactly Lean's lexicographic order `<` on strings. -/
theorem pyStrLt_eq_true_iff : ∀ a b : String, pyStrLt a b = true ↔ a < b := by
  intro a b
  rw [String.lt_iff_toList_lt]
  exact pyStrLtAux_eq_true_iff a.data b.data

/-- Lemma: `pyStrLe` computes exactly Lean's lexicographic order `≤` on strings. -/
theorem pyStrLe_eq_true_iff : ∀ a b : String, pyStrLe a b = true ↔ a ≤ b := by
  intro a b
  show (! pyStrLt b a) = true ↔ a ≤ b
  rw [Bool.not_eq_true', Bool.eq_false_iff, ← not_lt]
  exact not_congr (pyStrLt_eq_true_iff b a)

/-! ### Claims -/

/-- Claim C1: for every catalog, `list_available_scenes` returns exactly the
entries whose names end in `.ply` (a permutation of the `.ply` filter of the
raw listing), sorted lexicographically; and when the listing query fails it
returns the empty list (the error never propagates past this boundary, the
function being total). -/
theorem list_available_scenes_spec :
    ∀ (l : List String) (e : String),
      (list_available_scenes (.ok l)).Perm (l.filter (fun f => pyEndsWith f ".ply"))
      ∧ List.Sorted (· ≤ ·) (list_available_scenes (.ok l))
      ∧ list_available_scenes (.error e) = [] := by
  intro l e
  letI rts : IsTrans String (fun a b => pyStrLe a b = true) := by
    constructor
    intro a b c hab hbc
    exact (pyStrLe_eq_true_iff a c).mpr
      (le_trans ((pyStrLe_eq_true_iff a b).mp hab) ((pyStrLe_eq_true_iff b c).mp hbc))
  letI rto : IsTotal String (fun a b => pyStrLe a b = true) := by
    constructor
    intro a b
    rcases le_total a b with h | h
    · exact Or.inl ((pyStrLe_eq_true_iff a b).mpr h)
    · exact Or.inr ((pyStrLe_eq_true_iff b a).mpr h)
  refine ⟨List.perm_insertionSort _ _, ?_, rfl⟩
  have h := List.sorted_insertionSort (fun a b => pyStrLe a b = true)
    (l.filter (fun f => pyEndsWith f ".ply"))
  exact List.Pairwise.imp (fun hab => (pyStrLe_eq_true_iff _ _).mp hab) h

/-- Claim C3: with the `--list` flag on a non-empty catalog, the program
prints the numbered catalog and terminates with exit status 0, without
creating the output directory and without fetching any file. -/
theorem main_list_only :
    ∀ (args : Args) (raw : Except String (List String)) (env : String → FetchEnv),
      args.list = true → list_available_scenes raw ≠ [] →
      main args raw env =
        { exitCode := 0, printedNoFiles := false, printedCatalog := true,
          madeOutputDir := false, attempted := [], downloaded := [], wroteReadme := false } := by
  intro args raw env hl hne
  unfold main
  rw [if_neg (by simpa using hne), if_pos hl]

/-- Witness for C3 at a concrete one-entry catalog. -/
theorem main_list_only_witness :
    main ⟨5, ["out"], true⟩ (.ok ["a.ply"]) (fun _ => ⟨.error "net", false, false, false⟩) =
      { exitCode := 0, printedNoFiles := false, printedCatalog := true,
        madeOutputDir := false, attempted := [], downloaded := [], wroteReadme := false } :=
  main_list_only ⟨5, ["out"], true⟩ (.ok ["a.ply"]) _ rfl (by decide)

/-- Claim C7: when the catalog query yields an empty catalog, the program
prints the "no files found" diagnostic and exits with failure status 1,
performing no filesystem writes: the output directory is not created, no
download is attempted, and no README is written. -/
theorem main_empty_catalog :
    ∀ (args : Args) (raw : Except String (List String)) (env : String → FetchEnv),
      list_available_scenes raw = [] →
      main args raw env =
        { exitCode := 1, printedNoFiles := true, printedCatalog := false,
          madeOutputDir := false, attempted := [], downloaded := [], wroteReadme := false } := by
  intro args raw env hemp
  unfold main
  rw [if_pos (by simpa using hemp)]

/-- Witness for C7 at a failing listing query. -/
theorem main_empty_catalog_witness :
    main ⟨5, ["out"], false⟩ (.error "connection refused")
        (fun _ => ⟨.error "net", false, false, false⟩) =
      { exitCode := 1, printedNoFiles := true, printedCatalog := false,
        madeOutputDir := false, attempted := [], downloaded := [], wroteReadme := false } :=
  main_empty_catalog ⟨5, ["out"], false⟩ (.error "connection refused") _ rfl

/-- In a fetch run (non-empty catalog, no `--list`), the attempted files are
the Python slice `available_files[:min(count, len(available_files))]`. -/
theorem main_attempted_eq (args : Args) (raw : Except String (List String))
    (env : String → FetchEnv) (hne : list_available_scenes raw ≠ [])
    (hl : args.list = false) :
    (main args raw env).attempted =
      pySliceTo (list_available_scenes raw)
        (min args.count ((list_available_scenes raw).length : Int)) := by
  unfold main
  rw [if_neg (by simpa using hne), if_neg (by simp [hl])]
  dsimp only
  split <;> rfl

/-- Claim C2, as stated, is false: with catalog
`["a.ply", "b.ply", "c.ply"]` and requested count `-1`, the entry point does
not attempt the first `min(count, N)` (= `-1`, i.e. zero after clamping)
catalog entries: it attempts two files. -/
theorem main_take_min_counterexample :
    ¬ ((main ⟨-1, ["out"], false⟩ (.ok ["a.ply", "b.ply", "c.ply"])
          (fun _ => ⟨.error "net", false, false, false⟩)).attempted
        = (list_available_scenes (.ok ["a.ply", "b.ply", "c.ply"])).take
            ((min (-1 : Int)
              ((list_available_scenes (.ok ["a.ply", "b.ply", "c.ply"])).length : Int)).toNat)) := by
  decide

/-- Claim C2 (amended: for every *nonnegative* requested count): on a
non-empty catalog of `N` entries, the entry point attempts exactly the first
`min(count, N)` catalog entries, in catalog order; in particular a count
greater than the catalog size fetches exactly the catalog size. -/
theorem main_fetches_min_count (args : Args) (raw : Except String (List String))
    (env : String → FetchEnv) (hc : 0 ≤ args.count) (hl : args.list = false)
    (hne : list_available_scenes raw ≠ []) :
    (main args raw env).attempted =
      (list_available_scenes raw).take
        ((min args.count ((list_available_scenes raw).length : Int)).toNat) := by
  rw [main_attempted_eq args raw env hne hl]
  unfold pySliceTo
  rw [if_neg (not_lt.mpr (le_min hc (Int.natCast_nonneg _)))]

/-- Witness for C2 at the scenario from the spec: catalog
`["a.ply", "b.ply", "c.ply"]`, count 2 attempts `"a.ply"` then `"b.ply"`. -/
theorem main_fetches_min_count_witness :
    ((main ⟨2, ["out"], false⟩ (.ok ["a.ply", "b.ply", "c.ply"])
        (fun _ => ⟨.error "net", false, false, false⟩)).attempted
      = (list_available_scenes (.ok ["a.ply", "b.ply", "c.ply"])).take
          ((min (2 : Int)
            ((list_available_scenes (.ok ["a.ply", "b.ply", "c.ply"])).length : Int)).toNat))
    ∧ (list_available_scenes (.ok ["a.ply", "b.ply", "c.ply"])).take
          ((min (2 : Int)
            ((list_available_scenes (.ok ["a.ply", "b.ply", "c.ply"])).length : Int)).toNat)
        = ["a.ply", "b.ply"] :=
  ⟨main_fetches_min_count ⟨2, ["out"], false⟩ (.ok ["a.ply", "b.ply", "c.ply"])
      (fun _ => ⟨.error "net", false, false, false⟩) (by decide) rfl (by decide),
    by decide⟩

/-- Claim C9, as stated, is false in its final clause ("only count = 0
attempts nothing"): with catalog `["a.ply", "b.ply", "c.ply"]` and count
`-5`, the entry point attempts nothing although the count is nonzero. -/
theorem main_negative_count_counterexample :
    (main ⟨-5, ["out"], false⟩ (.ok ["a.ply", "b.ply", "c.ply"])
        (fun _ => ⟨.error "net", false, false, false⟩)).attempted = []
    ∧ (-5 : Int) ≠ 0 := by
  decide

/-- Claim C9 (amended): for every negative requested count `c` on a
non-empty catalog of `N` entries, the entry point attempts `max(0, N + c)`
files (all but the last `|c|` catalog entries), because the count is clamped
with `min` and then used as a Python slice bound; it attempts nothing
exactly when `N + c ≤ 0` (and, separately, when the count is zero). -/
theorem main_negative_count (args : Args) (raw : Except String (List String))
    (env : String → FetchEnv) (hc : args.count < 0) (hl : args.list = false)
    (hne : list_available_scenes raw ≠ []) :
    (main args raw env).attempted =
      (list_available_scenes raw).take
        ((((list_available_scenes raw).length : Int) + args.count).toNat)
    ∧ ((main args raw env).attempted = [] ↔
        ((list_available_scenes raw).length : Int) + args.count ≤ 0) := by
  have hmin : min args.count ((list_available_scenes raw).length : Int) = args.count :=
    min_eq_left (le_trans (le_of_lt hc) (Int.natCast_nonneg _))
  have h := main_attempted_eq args raw env hne hl
  rw [hmin] at h
  unfold pySliceTo at h
  rw [if_pos hc] at h
  refine ⟨h, ?_⟩
  rw [h, List.take_eq_nil_iff]
  constructor
  · intro hor
    cases hor with
    | inl h0 => exact Int.toNat_eq_zero.mp h0
    | inr h0 => exact absurd h0 hne
  · intro hle
    exact Or.inl (Int.toNat_eq_zero.mpr hle)

/-- Witness for C9 (amended) at catalog `["a.ply", "b.ply", "c.ply"]` and
count `-1`: two files are attempted. -/
theorem main_negative_count_witness :
    ((main ⟨-1, ["out"], false⟩ (.ok ["a.ply", "b.ply", "c.ply"])
        (fun _ => ⟨.error "net", false, false, false⟩)).attempted
      = (list_available_scenes (.ok ["a.ply", "b.ply", "c.ply"])).take
          ((((list_available_scenes (.ok ["a.ply", "b.ply", "c.ply"])).length : Int)
            + (-1 : Int)).toNat))
    ∧ ((main ⟨-1, ["out"], false⟩ (.ok ["a.ply", "b.ply", "c.ply"])
        (fun _ => ⟨.error "net", false, false, false⟩)).attempted = [] ↔
        ((list_available_scenes (.ok ["a.ply", "b.ply", "c.ply"])).length : Int)
          + (-1 : Int) ≤ 0) :=
  main_negative_count ⟨-1, ["out"], false⟩ (.ok ["a.ply", "b.ply", "c.ply"])
    (fun _ => ⟨.error "net", false, false, false⟩) (by decide) rfl (by decide)

/-- The basename of a path obtained by appending one component. -/
theorem pyName_append (p : Path) (nm : String) : pyName (p ++ [nm]) = nm := by
  unfold pyName
  rw [List.getLast?_concat]
  rfl

/-- A path nested strictly below a directory is distinct from the directory
entry with the same basename. -/
theorem nested_ne (od sub : Path) (nm : String) (hs : sub ≠ []) :
    od ++ (sub ++ [nm]) ≠ od ++ [nm] := by
  intro h
  have hlen := congrArg List.length h
  simp only [List.length_append, List.length_cons, List.length_nil] at hlen
  exact hs (List.length_eq_zero.mp (by omega))

/-- Claim C5: a fetch that fails for any reason (the download call raising,
the rename raising, the stat raising) returns `False` instead of raising
(`download_ply_file` is total and reports failure through its Boolean
result), and the failure is local to that one file: the list of files the
entry point attempts does not depend on the per-file outcomes, and the
successfully downloaded files are exactly the attempted files whose fetch
returned `True`. -/
theorem download_failure_is_local :
    ∀ (od : Path) (lp : Path) (sz : Nat) (e : String) (r m s : Bool)
      (args : Args) (raw : Except String (List String))
      (envA envB env : String → FetchEnv),
      download_ply_file od ⟨.error e, r, m, s⟩ = ⟨false, none, false, false⟩
      ∧ (download_ply_file od ⟨.ok (lp, sz), r, m, true⟩).ok = false
      ∧ (download_ply_file od ⟨.ok (od ++ (["sub"] ++ ["x.ply"]), sz), true, m, s⟩).ok = false
      ∧ (main args raw envA).attempted = (main args raw envB).attempted
      ∧ (main args raw env).downloaded
          = (main args raw env).attempted.filter
              (fun f => (download_ply_file args.output_dir (env f)).ok) := by
  intro od lp sz e r m s args raw envA envB env
  refine ⟨rfl, ?_, ?_, ?_, ?_⟩
  · unfold download_ply_file
    dsimp only
    split
    · rfl
    · split <;> rfl
  · have hne : od ++ (["sub"] ++ ["x.ply"]) ≠ od ++ [pyName (od ++ (["sub"] ++ ["x.ply"]))] := by
      rw [show od ++ (["sub"] ++ ["x.ply"]) = (od ++ ["sub"]) ++ ["x.ply"] by simp,
        pyName_append]
      rw [show (od ++ ["sub"]) ++ ["x.ply"] = od ++ (["sub"] ++ ["x.ply"]) by simp]
      exact nested_ne od ["sub"] "x.ply" (by simp)
    unfold download_ply_file
    dsimp only
    rw [if_neg hne]
    simp
  · unfold main
    by_cases hemp : (list_available_scenes raw).isEmpty
    · rw [if_pos hemp, if_pos hemp]
    · rw [if_neg hemp, if_neg hemp]
      by_cases hl : args.list
      · rw [if_pos hl, if_pos hl]
      · rw [if_neg hl, if_neg hl]
        dsimp only
        split <;> split <;> rfl
  · unfold main
    by_cases hemp : (list_available_scenes raw).isEmpty
    · rw [if_pos hemp]
      rfl
    · rw [if_neg hemp]
      by_cases hl : args.list
      · rw [if_pos hl]
        rfl
      · rw [if_neg hl]
        dsimp only
        split <;> rfl

/-- Claim C4: when the underlying retrieval of a successful fetch placed the file
under a subdirectory of the output directory (`hf_hub_download` returned
`output_dir / sub / name` with `sub` non-empty), `download_ply_file`
relocates the file so that it ends up directly inside the output directory
(`output_dir / name`), attempts to remove the intermediate directory
(succeeding exactly when rmdir does not raise), and tolerates failure of
that removal: with the rmdir outcome flipped either way, the fetch still
returns success. -/
theorem download_relocates (od sub : Path) (nm : String) (sz : Nat) (env : FetchEnv)
    (hhf : env.hf = .ok (od ++ (sub ++ [nm]), sz)) (hsub : sub ≠ [])
    (hok : (download_ply_file od env).ok = true) :
    (download_ply_file od env).finalPath = some (od ++ [nm])
    ∧ (download_ply_file od env).rmdirAttempted = true
    ∧ (download_ply_file od env).rmdirSucceeded = ! env.rmdirRaises
    ∧ (download_ply_file od ⟨env.hf, env.renameRaises, true, env.statRaises⟩).ok = true
    ∧ (download_ply_file od ⟨env.hf, env.renameRaises, false, env.statRaises⟩).ok = true := by
  obtain ⟨hf, r, m, s⟩ := env
  dsimp only at hhf hok ⊢
  subst hhf
  have hname : pyName (od ++ (sub ++ [nm])) = nm := by
    rw [show od ++ (sub ++ [nm]) = (od ++ sub) ++ [nm] by simp, pyName_append]
  have hne : od ++ (sub ++ [nm]) ≠ od ++ [pyName (od ++ (sub ++ [nm]))] := by
    rw [hname]
    exact nested_ne od sub nm hsub
  have hD : ∀ r' m' s' : Bool,
      download_ply_file od ⟨.ok (od ++ (sub ++ [nm]), sz), r', m', s'⟩ =
        if r' = true then
          ⟨false, some (od ++ (sub ++ [nm])), false, false⟩
        else if s' = true then
          ⟨false, some (od ++ [nm]), true, ! m'⟩
        else
          ⟨true, some (od ++ [nm]), true, ! m'⟩ := by
    intro r' m' s'
    unfold download_ply_file
    dsimp only
    rw [if_neg hne, hname]
  rw [hD] at hok
  cases r with
  | true => simp at hok
  | false =>
    cases s with
    | true => simp at hok
    | false =>
      rw [hD, hD, hD]
      exact ⟨rfl, rfl, rfl, rfl, rfl⟩

/-- Witness for C4: with the file materialized at `out/sub/a.ply` and a
raising rmdir, the fetch succeeds and the file ends up at `out/a.ply`. -/
theorem download_relocates_witness :
    (download_ply_file ["out"]
        ⟨.ok (["out"] ++ (["sub"] ++ ["a.ply"]), 5), false, true, false⟩).finalPath
      = some (["out"] ++ ["a.ply"])
    ∧ (download_ply_file ["out"]
        ⟨.ok (["out"] ++ (["sub"] ++ ["a.ply"]), 5), false, true, false⟩).rmdirAttempted = true
    ∧ (download_ply_file ["out"]
        ⟨.ok (["out"] ++ (["sub"] ++ ["a.ply"]), 5), false, true, false⟩).rmdirSucceeded
      = ! (true : Bool)
    ∧ (download_ply_file ["out"]
        ⟨.ok (["out"] ++ (["sub"] ++ ["a.ply"]), 5), false, true, false⟩).ok = true
    ∧ (download_ply_file ["out"]
        ⟨.ok (["out"] ++ (["sub"] ++ ["a.ply"]), 5), false, false, false⟩).ok = true :=
  download_relocates ["out"] ["sub"] "a.ply" 5
    ⟨.ok (["out"] ++ (["sub"] ++ ["a.ply"]), 5), false, true, false⟩
    rfl (by decide) (by decide)

/-- Claim C6: the exit status is 0 exactly when the libraries are present,
the catalog is non-empty, and either list-only mode completed or at least
one file was fetched; and when the libraries are absent the process
terminates with status 1 before any other logic runs (nothing printed, no
directory created, nothing attempted, no README). -/
theorem program_exit_status :
    ∀ (depsOk : Bool) (args : Args) (raw : Except String (List String))
      (env : String → FetchEnv),
      ((program depsOk args raw env).exitCode = 0 ↔
        depsOk = true ∧ list_available_scenes raw ≠ []
          ∧ (args.list = true ∨ (program depsOk args raw env).downloaded ≠ []))
      ∧ program false args raw env =
          { exitCode := 1, printedNoFiles := false, printedCatalog := false,
            madeOutputDir := false, attempted := [], downloaded := [],
            wroteReadme := false } := by
  intro depsOk args raw env
  refine ⟨?_, rfl⟩
  cases depsOk with
  | false => simp [program]
  | true =>
    have hpt : program true args raw env = main args raw env := rfl
    rw [hpt]
    unfold main
    by_cases hemp : (list_available_scenes raw).isEmpty
    · rw [if_pos hemp]
      simp [List.isEmpty_iff.mp hemp]
    · rw [if_neg hemp]
      have hne' : list_available_scenes raw ≠ [] := by
        simpa [List.isEmpty_iff] using hemp
      by_cases hl : args.list
      · rw [if_pos hl]
        simp [hl, hne']
      · rw [if_neg hl]
        dsimp only
        split
        next hdown =>
          rw [List.isEmpty_iff] at hdown
          simp [hl, hdown, hne']
        next hdown =>
          have hdown' := (Bool.not_eq_true _).mp hdown
          rw [List.isEmpty_eq_false] at hdown'
          simp [hl, hdown', hne']

/-- Writing a file twice at the same path is the same as writing it once
(the second write overwrites the first). -/
theorem writeFile_overwrite (fs : FS) (p : Path) (c c' : String) :
    writeFile (writeFile fs p c') p c = writeFile fs p c := by
  unfold writeFile
  simp [List.filter_cons, List.filter_filter]

/-- Existence of a file is unaffected by a write at a different path. -/
theorem fileExists_writeFile_ne (fs : FS) (q : Path) (c : String) (p : Path) (h : p ≠ q) :
    fileExists (writeFile fs q c) p = fileExists fs p := by
  have key : ∀ l : FS,
      (l.filter (fun e => ! (e.1 == q))).any (fun e => e.1 == p)
        = l.any (fun e => e.1 == p) := by
    intro l
    induction l with
    | nil => rfl
    | cons e l ih =>
      by_cases he : e.1 == q
      · have hep : (e.1 == p) = false := by
          rw [eq_of_beq he]
          exact beq_eq_false_iff_ne.mpr (Ne.symm h)
        simp [List.filter_cons, he, hep, ih]
      · simp [List.filter_cons, he, ih]
  unfold fileExists writeFile
  have hqp : (q == p) = false := beq_eq_false_iff_ne.mpr (Ne.symm h)
  simp [hqp, key fs]

/-- The stat result of a file is unaffected by a write at a different
path. -/
theorem statSize_writeFile_ne (fs : FS) (q : Path) (c : String) (p : Path) (h : p ≠ q) :
    statSize (writeFile fs q c) p = statSize fs p := by
  have key : ∀ l : FS,
      (l.filter (fun e => ! (e.1 == q))).find? (fun e => e.1 == p)
        = l.find? (fun e => e.1 == p) := by
    intro l
    induction l with
    | nil => rfl
    | cons e l ih =>
      by_cases he : e.1 == q
      · have hep : (e.1 == p) = false := by
          rw [eq_of_beq he]
          exact beq_eq_false_iff_ne.mpr (Ne.symm h)
        simp [List.filter_cons, he, List.find?_cons, hep, ih]
      · by_cases hep : e.1 == p
        · simp [List.filter_cons, he, List.find?_cons, hep]
        · simp [List.filter_cons, he, List.find?_cons, hep, ih]
  unfold statSize writeFile
  have hqp : (q == p) = false := beq_eq_false_iff_ne.mpr (Ne.symm h)
  simp [List.find?_cons, hqp, key fs]

/-- The README enumeration does not change when the README itself is
(re)written, as long as no downloaded filename has basename `README.md`. -/
theorem enumEntriesAux_writeFile (od : Path) (fs : FS) (c : String) :
    ∀ (files : List String) (i : Nat), (∀ f ∈ files, pyBaseName f ≠ "README.md") →
      enumEntriesAux od (writeFile fs (od ++ ["README.md"]) c) i files
        = enumEntriesAux od fs i files := by
  intro files
  induction files with
  | nil =>
    intro i _
    rfl
  | cons f rest ih =>
    intro i hall
    have hb : pyBaseName f ≠ "README.md" := hall f (List.mem_cons_self f rest)
    have hne : od ++ [pyBaseName f] ≠ od ++ ["README.md"] := by
      intro hcontr
      have h2 : [pyBaseName f] = ["README.md"] := by
        exact List.append_cancel_left hcontr
      simp at h2
      exact hb h2
    have hrest : ∀ g ∈ rest, pyBaseName g ≠ "README.md" :=
      fun g hg => hall g (List.mem_cons_of_mem f hg)
    simp only [enumEntriesAux, fileExists_writeFile_ne fs _ c _ hne,
      statSize_writeFile_ne fs _ c _ hne, ih (i + 1) hrest]

/-- The README contents do not change when recomputed after the README was
written, as long as no downloaded filename has basename `README.md`. -/
theorem readmeContent_writeReadme (od : Path) (files : List String) (fs : FS) (c : String)
    (hall : ∀ f ∈ files, pyBaseName f ≠ "README.md") :
    readmeContent od files (writeFile fs (od ++ ["README.md"]) c)
      = readmeContent od files fs := by
  unfold readmeContent enumeratedEntries
  rw [enumEntriesAux_writeFile od fs c files 1 hall]

/-- Claim C8: `create_readme` is idempotent and deterministic. It is a pure
function of the output directory, the downloaded-files list and the file
sizes on disk; invoking it a second time right after the first (identical
inputs, and identical sizes on disk, which the first write preserves since
no downloaded file is named `README.md`) overwrites the README with
byte-identical content, leaving the filesystem unchanged. -/
theorem create_readme_idempotent (od : Path) (files : List String) (fs : FS)
    (hall : ∀ f ∈ files, pyBaseName f ≠ "README.md") :
    create_readme od files (create_readme od files fs) = create_readme od files fs := by
  unfold create_readme
  rw [readmeContent_writeReadme od files fs _ hall, writeFile_overwrite]

/-- Witness for C8 at a one-file filesystem. -/
theorem create_readme_idempotent_witness :
    create_readme ["out"] ["a.ply"]
        (create_readme ["out"] ["a.ply"] [(["out", "a.ply"], "xyz")])
      = create_readme ["out"] ["a.ply"] [(["out", "a.ply"], "xyz")] :=
  create_readme_idempotent ["out"] ["a.ply"] [(["out", "a.ply"], "xyz")] (by decide)

/-- The names in the README enumeration are exactly the basenames of the
downloaded files that exist on disk at writing time. -/
theorem enumEntriesAux_names (od : Path) (fs : FS) :
    ∀ (files : List String) (i : Nat),
      (enumEntriesAux od fs i files).map (fun e => e.2.1)
        = (files.filter (fun f => fileExists fs (od ++ [pyBaseName f]))).map pyBaseName := by
  intro files
  induction files with
  | nil =>
    intro i
    rfl
  | cons f rest ih =>
    intro i
    by_cases hf : fileExists fs (od ++ [pyBaseName f])
    · simp [enumEntriesAux, hf, List.filter_cons, ih]
    · simp [enumEntriesAux, hf, List.filter_cons, ih]

/-- Claim C10: the enumerated file list of the README contains exactly those
downloaded filenames whose local file exists in the output directory at
writing time (a file deleted before the summary is written is silently
omitted), while the document header reports the full length of the
downloaded-files list; hence the header count can exceed the number of
enumerated entries. -/
theorem readme_enumerates_existing :
    ∀ (od : Path) (files : List String) (fs : FS),
      ((enumeratedEntries od files fs).map (fun e => e.2.1)
        = (files.filter (fun f => fileExists fs (od ++ [pyBaseName f]))).map pyBaseName)
      ∧ (readmeContent od files fs
          = readmeHeader files.length
            ++ String.join ((enumeratedEntries od files fs).map
                (fun e => readmeEntryLine e.1 e.2.1 e.2.2))
            ++ readmeFooter)
      ∧ ∃ (od' : Path) (files' : List String) (fs' : FS),
          (enumeratedEntries od' files' fs').length < files'.length := by
  intro od files fs
  refine ⟨enumEntriesAux_names od fs files 1, rfl, ⟨["o"], ["a.ply"], [], by decide⟩⟩

end DownloadTestset
